import Mathlib

/-!
Verification of `dso-spreadsheet-sanitizer` (src/main.py) against its
specification.

The program rewrites ZIP-based spreadsheet containers entry by entry.
We embed the entry-level and container-level behaviour of
`sanitize_xlsx` (src/main.py lines 27-99), `sanitize_ods` (lines
102-172), `sanitize_csv` (lines 175-212) and the exit-code mapping of
`main` (lines 215-242).

Modelling conventions:

* A container is the ordered list of its entries, as produced by
  `ZipFile.infolist()`.  Per the data model, entry names are unique
  within a container, so `zin.read(item.filename)` is modelled as the
  the payload of that entry.
* An entry payload abstracts its bytes by their XML parse result:
  `Payload.raw b` stands for bytes `b` that do not parse as XML
  (`ET.fromstring` raises), and `Payload.xml b d` stands for bytes `b`
  whose parse yields the element tree `d`.  `ET.tostring` is modelled
  by `serializeXml`, an executable printer paired with the tree it was
  printed from, so re-parsing a serialized tree yields that tree
  (ElementTree round-trips its own output).
* `zipfile.ZipFile.writestr(item, buffer)` keeps the source `ZipInfo`
  metadata; `writestr(filename, content)` builds a fresh `ZipInfo`
  from the name alone (current timestamp, `0o600 << 16` external
  attributes, the archive compression `ZIP_DEFLATED`).  The wall
  clock is abstracted to a constant, `freshMeta`, within one run.
* Two Python-level exceptions decide the control flow of the
  hidden-sheet code and are embedded as the source executes, not as it
  reads:
  - line 74 `sheet.getparent()`: `xml.etree.ElementTree` elements have
    no `getparent` method (that is an lxml API), so the first sheet
    whose `sheetId` is in `sheets_to_remove` raises `AttributeError`,
    caught at line 76, and the original bytes are written;
  - line 139 `table.get("table:display", default="true",
    namespaces=namespaces)`: `Element.get` accepts no `namespaces`
    keyword, so the first iteration over a non-empty table list raises
    `TypeError`, caught at line 149, and the original bytes are
    written.
-/

/-- Qualified XML name: optional namespace URI plus local name.
ElementTree stores namespaced names in Clark notation; we model them as
a pair. An unprefixed attribute such as `state` carries no namespace. -/
structure QName where
  ns : Option String
  name : String
deriving DecidableEq, Repr

/-- Parsed XML element tree, the shape `ET.fromstring` produces: a tag,
an attribute map (modelled as an association list; the parser rejects
duplicate attributes), and the list of child elements in document
order. Text content plays no role in the sanitizer and is omitted. -/
inductive Xml where
  | elem (tag : QName) (attrs : List (QName × String)) (children : List Xml)

/-- Tag of an element. -/
def Xml.tag : Xml → QName
  | .elem t _ _ => t

/-- Attribute list of an element. -/
def Xml.attrs : Xml → List (QName × String)
  | .elem _ a _ => a

/-- Child elements of an element. -/
def Xml.children : Xml → List Xml
  | .elem _ _ c => c

/-- Attribute lookup, `Element.get(key)`: the attribute value if
present, otherwise `none` (Python `None`). -/
def Xml.attrGet (x : Xml) (k : QName) : Option String :=
  (x.attrs.find? (fun p => p.1 == k)).map (fun p => p.2)

mutual
/-- Proper descendants of an element in document order: the semantics
of an ElementTree `findall` with a `.//` path, which matches
descendants at any depth but never the context element itself. -/
def descendants : Xml → List Xml
  | .elem _ _ c => descList c

/-- Descendants-or-self of each element of a list, in document order. -/
def descList : List Xml → List Xml
  | [] => []
  | x :: xs => x :: (descendants x ++ descList xs)
end

/-- Namespace of the workbook descriptor (src/main.py line 60). -/
def mainNS : String := "http://schemas.openxmlformats.org/spreadsheetml/2006/main"

/-- OpenDocument table namespace (src/main.py line 134). -/
def tableNS : String := "urn:oasis:names:tc:opendocument:xmlns:table:1.0"

/-- OpenDocument office namespace (src/main.py line 133). -/
def officeNS : String := "urn:oasis:names:tc:opendocument:xmlns:office:1.0"

/-- Qualified name of a workbook `sheet` element. -/
def sheetTag : QName := ⟨some mainNS, "sheet"⟩

/-- Qualified name of a content `table` element. -/
def tableTag : QName := ⟨some tableNS, "table"⟩

/-- Unprefixed `state` attribute of a sheet (src/main.py line 67). -/
def stateAttr : QName := ⟨none, "state"⟩

/-- Unprefixed `sheetId` attribute of a sheet (src/main.py line 68). -/
def sheetIdAttr : QName := ⟨none, "sheetId"⟩

/-- Embedding of `tree.findall(".//xmlns:sheet", namespaces)`
(src/main.py line 63): all descendant elements whose tag is the
namespaced `sheet`. -/
def findSheets (t : Xml) : List Xml :=
  (descendants t).filter (fun e => e.tag == sheetTag)

/-- Embedding of `tree.findall(".//table:table", namespaces)`
(src/main.py line 136). -/
def findTables (t : Xml) : List Xml :=
  (descendants t).filter (fun e => e.tag == tableTag)

/-- Hidden-sheet predicate of src/main.py line 67:
`sheet.get("state") == "hidden" or sheet.get("state") == "veryHidden"`. -/
def isHiddenSheet (s : Xml) : Bool :=
  s.attrGet stateAttr == some "hidden" || s.attrGet stateAttr == some "veryHidden"

/-- Rendering of a qualified name by the model serializer. -/
def qnameToString (q : QName) : String :=
  match q.ns with
  | none => q.name
  | some u => u ++ ":" ++ q.name

/-- Rendering of an attribute list by the model serializer. -/
def attrsToString (a : List (QName × String)) : String :=
  a.foldl (fun s p => s ++ " " ++ qnameToString p.1 ++ "=\"" ++ p.2 ++ "\"") ""

mutual
/-- Model of XML serialization (`ET.tostring`): a deterministic
rendering of the tree. Only two properties of the real serializer are
used: it is a function of the tree, and its output parses back to the
same tree. -/
def xmlToString : Xml → String
  | .elem t a c =>
      "<" ++ qnameToString t ++ attrsToString a ++ ">" ++
        xmlListToString c ++ "</" ++ qnameToString t ++ ">"

/-- Serialization of a list of sibling elements. -/
def xmlListToString : List Xml → String
  | [] => ""
  | x :: xs => xmlToString x ++ xmlListToString xs
end

/-- Bytes of the model serialization. -/
def xmlToBytes (d : Xml) : List Nat :=
  (xmlToString d).toList.map Char.toNat

/-- Payload of one container entry, abstracting its bytes by their XML
parse result: `raw b` are bytes on which `ET.fromstring` raises,
`xml b d` are bytes `b` that parse to the tree `d`. -/
inductive Payload where
  | raw (bytes : List Nat)
  | xml (bytes : List Nat) (doc : Xml)

/-- Embedding of `ET.fromstring` on an entry payload. -/
def parseXml : Payload → Option Xml
  | .raw _ => none
  | .xml _ d => some d

/-- Embedding of `ET.tostring(tree, encoding="utf8")` followed by
decode/encode on write: the serialized bytes, which parse back to the
same tree. -/
def serializeXml (d : Xml) : Payload :=
  .xml (xmlToBytes d) d

/-- Bytes of a payload as written into the archive. -/
def payloadBytes : Payload → List Nat
  | .raw b => b
  | .xml b _ => b

/-- Compression constant `zipfile.ZIP_DEFLATED`. -/
def ZIP_DEFLATED : Nat := 8

/-- Per-entry ZIP metadata carried by a `ZipInfo`: timestamp, external
attributes and compression method.  These are the fields `writestr`
fills when handed a bare name instead of a `ZipInfo`. -/
structure ZipMeta where
  dateTime : Nat × Nat × Nat × Nat × Nat × Nat
  externalAttr : Nat
  compressType : Nat
deriving DecidableEq, Repr

/-- Metadata of a `ZipInfo` freshly built by `writestr(name, data)` on
an archive opened with `compression=zipfile.ZIP_DEFLATED`: the current
local time (abstracted to a constant within one run), `0o600 << 16`
external attributes, deflate compression. -/
def freshMeta : ZipMeta :=
  ⟨(2026, 1, 1, 0, 0, 0), 0o600 <<< 16, ZIP_DEFLATED⟩

/-- One container entry as listed by `ZipFile.infolist()`: its name,
payload bytes, and `ZipInfo` metadata. -/
structure Entry where
  name : String
  payload : Payload
  meta : ZipMeta

/-- A container is the ordered list of its entries.  Entry names are
unique within a container (spec data model), which lets
`zin.read(item.filename)` be modelled as the entry payload itself. -/
abbrev Container := List Entry

/-- Condition under which the sheet-removal loop of src/main.py lines
64-74 raises.  Lines 64-69 collect `sheets_to_remove`, the `sheetId`
attributes (possibly `None`) of the sheets whose `state` is `hidden` or
`veryHidden`.  The loop of lines 72-74 then calls `sheet.getparent()`
on the first sheet whose `sheetId` lies in that list; ElementTree
elements have no `getparent` method (an lxml API), so that call raises
`AttributeError`.  Hence the loop raises exactly when some sheet has
its `sheetId` in `sheets_to_remove`. -/
def pruneRaises (tree : Xml) : Bool :=
  (findSheets tree).any (fun s =>
    (((findSheets tree).filter isHiddenSheet).map
      (fun sh => sh.attrGet sheetIdAttr)).contains (s.attrGet sheetIdAttr))

/-- Per-entry behaviour of the `sanitize_xlsx` copy loop (src/main.py
lines 45-87).  `none` means the entry is dropped (the `continue` of
line 51); `some e` means `e` is written to the output.

With `remove_hidden_sheets` set and a parsed workbook, line 74 calls
`sheet.getparent()` on the first sheet whose `sheetId` was collected in
`sheets_to_remove`; ElementTree elements have no `getparent` (an lxml
API), so `AttributeError` is raised, caught at line 76, and the
original bytes are written via `zout.writestr(filename, ...)` — hence
the `any` branch below yields the unchanged payload with fresh
metadata.  Only when no sheet matches does control reach line 75 and
write the re-serialized tree. -/
def xlsxTransformEntry (remove_macros remove_hidden_sheets : Bool) (item : Entry) :
    Option Entry :=
  if remove_macros && item.name == "xl/vbaProject.bin" then
    none
  else if remove_hidden_sheets && item.name == "xl/workbook.xml" then
    match parseXml item.payload with
    | none => some ⟨item.name, item.payload, freshMeta⟩
    | some tree =>
      if pruneRaises tree then
        some ⟨item.name, item.payload, freshMeta⟩
      else
        some ⟨item.name, serializeXml tree, freshMeta⟩
  else
    some item

/-- The entry loop of `sanitize_xlsx` over a whole container. -/
def sanitize_xlsx_entries (remove_macros remove_hidden_sheets : Bool)
    (zin : Container) : Container :=
  zin.filterMap (xlsxTransformEntry remove_macros remove_hidden_sheets)

/-- Per-entry behaviour of the `sanitize_ods` copy loop (src/main.py
lines 124-159).  With `remove_hidden_sheets` set and a parsed
content.xml, line 139 calls `Element.get` with a `namespaces` keyword
argument, which `xml.etree` does not accept; the first iteration over a
non-empty table list raises `TypeError`, caught at line 149, and the
original bytes are written.  Only a document with no table elements
reaches line 147 and is re-serialized.  No entry is ever dropped. -/
def odsTransformEntry (remove_hidden_sheets : Bool) (item : Entry) : Entry :=
  if remove_hidden_sheets && item.name == "content.xml" then
    match parseXml item.payload with
    | none => ⟨item.name, item.payload, freshMeta⟩
    | some tree =>
      if (findTables tree).isEmpty then ⟨item.name, serializeXml tree, freshMeta⟩
      else ⟨item.name, item.payload, freshMeta⟩
  else item

/-- The entry loop of `sanitize_ods` over a whole container. -/
def sanitize_ods_entries (remove_hidden_sheets : Bool) (zin : Container) : Container :=
  zin.map (odsTransformEntry remove_hidden_sheets)

/-- Result of one sanitization run: the destination container if one
was written (`none` means the destination was never opened), and the
boolean the function returns. -/
structure RunResult where
  output : Option Container
  ok : Bool

/-- Embedding of `sanitize_xlsx` (src/main.py lines 27-99) on a valid,
readable input container.  Lines 39-41: an existing output without
`overwrite` fails before the destination is opened. -/
def sanitize_xlsx (zin : Container) (outputExists : Bool)
    (remove_macros remove_hidden_sheets overwrite : Bool) : RunResult :=
  if outputExists && !overwrite then ⟨none, false⟩
  else ⟨some (sanitize_xlsx_entries remove_macros remove_hidden_sheets zin), true⟩

/-- Embedding of `sanitize_ods` (src/main.py lines 102-172).  The
`remove_macros` flag only produces a warning (lines 119-120) and has no
behavioural effect. -/
def sanitize_ods (zin : Container) (outputExists : Bool)
    (remove_macros remove_hidden_sheets overwrite : Bool) : RunResult :=
  if outputExists && !overwrite then ⟨none, false⟩
  else ⟨some (sanitize_ods_entries remove_hidden_sheets zin), true⟩

/-- A parsed tabular file as pandas `read_csv` produces it: a header
row and data rows whose fields are `none` exactly where the source had
a missing value (NaN). -/
structure Csv where
  header : List String
  rows : List (List (Option String))
deriving DecidableEq, Repr

/-- Row completeness: no missing field. -/
def rowComplete (r : List (Option String)) : Bool :=
  r.all (fun f => f.isSome)

/-- Embedding of `df.dropna()` (src/main.py line 195): drop every row
with any missing value, keeping the rest in order. -/
def dropna (rows : List (List (Option String))) : List (List (Option String)) :=
  rows.filter rowComplete

/-- The frame transformation of `sanitize_csv` (src/main.py lines
192-196): read, drop incomplete rows, write back with the header. -/
def sanitize_csv_frame (c : Csv) : Csv :=
  ⟨c.header, dropna c.rows⟩

/-- Result of a CSV run, mirroring `RunResult`. -/
structure CsvRunResult where
  output : Option Csv
  ok : Bool
deriving DecidableEq, Repr

/-- Embedding of `sanitize_csv` (src/main.py lines 175-212) on a valid
readable input. -/
def sanitize_csv (c : Csv) (outputExists overwrite : Bool) : CsvRunResult :=
  if outputExists && !overwrite then ⟨none, false⟩
  else ⟨some (sanitize_csv_frame c), true⟩

/-- Exit-code mapping of `main` (src/main.py lines 229-242): a failed
sanitization exits 1, success exits 0. -/
def exitSignal (ok : Bool) : Nat :=
  if ok then 0 else 1

/-- Number of hidden sheets collected into `sheets_to_remove` when the
hidden-sheet pass processes a payload (src/main.py lines 63-69): zero
when the payload does not parse. -/
def hiddenSheetsFound (p : Payload) : Nat :=
  match parseXml p with
  | none => 0
  | some t => ((findSheets t).filter isHiddenSheet).length

/-! ### Concrete sample data used by counterexamples and witnesses -/

/-- Sample source ZipInfo metadata, distinct from `freshMeta`. -/
def srcMeta : ZipMeta := ⟨(2021, 2, 3, 4, 5, 6), 1, 0⟩

/-- A visible sheet element of a workbook descriptor. -/
def visibleSheet : Xml :=
  .elem sheetTag [(⟨none, "name"⟩, "Sheet1"), (sheetIdAttr, "1")] []

/-- A sheet element marked `state="hidden"`. -/
def hiddenSheet : Xml :=
  .elem sheetTag
    [(⟨none, "name"⟩, "Secret"), (sheetIdAttr, "2"), (stateAttr, "hidden")] []

/-- A workbook descriptor with one visible and one hidden sheet. -/
def hiddenWorkbookDoc : Xml :=
  .elem ⟨some mainNS, "workbook"⟩ []
    [.elem ⟨some mainNS, "sheets"⟩ [] [visibleSheet, hiddenSheet]]

/-- Stand-in original bytes of the sample workbook descriptor. -/
def wbSrcBytes : List Nat := [60, 119, 98]

/-- A two-entry family-A container: the descriptor above plus an
untargeted entry. -/
def c1input : Container :=
  [⟨"xl/workbook.xml", Payload.xml wbSrcBytes hiddenWorkbookDoc, srcMeta⟩,
   ⟨"xl/styles.xml", Payload.raw [9, 9], srcMeta⟩]

/-- An OpenDocument table element with `table:display="false"`. -/
def hiddenTable : Xml :=
  .elem tableTag
    [(⟨some tableNS, "name"⟩, "SecretTable"), (⟨some tableNS, "display"⟩, "false")] []

/-- An OpenDocument content tree with one hidden and one visible table. -/
def odsContentDoc : Xml :=
  .elem ⟨some officeNS, "document-content"⟩ []
    [.elem ⟨some officeNS, "body"⟩ []
      [.elem ⟨some officeNS, "spreadsheet"⟩ []
        [hiddenTable, .elem tableTag [(⟨some tableNS, "name"⟩, "Visible")] []]]]

/-- Stand-in original bytes of the sample content descriptor. -/
def contentSrcBytes : List Nat := [60, 99]

/-- The sample content.xml entry. -/
def c6entry : Entry := ⟨"content.xml", Payload.xml contentSrcBytes odsContentDoc, srcMeta⟩

/-- The qualified `table:display` attribute name. -/
def displayAttr : QName := ⟨some tableNS, "display"⟩

/-- Sample untargeted family-A entry. -/
def sampleXlsxEntry : Entry := ⟨"xl/styles.xml", Payload.raw [1, 2, 3], srcMeta⟩

/-- Sample untargeted family-B entry. -/
def sampleOdsEntry : Entry := ⟨"meta.xml", Payload.raw [4, 5], srcMeta⟩

/-- Sample macro binary entry. -/
def sampleVbaEntry : Entry := ⟨"xl/vbaProject.bin", Payload.raw [7, 7], srcMeta⟩

/-- Sample unparsable descriptor entries. -/
def rawWorkbookEntry : Entry := ⟨"xl/workbook.xml", Payload.raw [0], srcMeta⟩

/-- Sample unparsable content.xml entry. -/
def rawContentEntry : Entry := ⟨"content.xml", Payload.raw [1], srcMeta⟩

/-- A workbook descriptor containing only a visible sheet. -/
def visibleWorkbookDoc : Xml :=
  .elem ⟨some mainNS, "workbook"⟩ []
    [.elem ⟨some mainNS, "sheets"⟩ [] [visibleSheet]]

/-- A descriptor entry that parses and has no hidden sheet. -/
def visibleWbEntry : Entry :=
  ⟨"xl/workbook.xml", Payload.xml wbSrcBytes visibleWorkbookDoc, srcMeta⟩

/-- Sample tabular input: header plus five rows, the second of which has
a missing field. -/
def c9input : Csv :=
  ⟨["a", "b"],
   [[some "1", some "2"], [some "3", none], [some "4", some "5"],
    [some "6", some "7"], [some "8", some "9"]]⟩

/-! ### Helper lemmas -/

/-- Entries whose name matches neither trigger take the generic copy
path of src/main.py lines 85-87 and are written unchanged, metadata
included. -/
theorem xlsxTransformEntry_copy (rm rhs : Bool) (item : Entry)
    (h1 : item.name ≠ "xl/vbaProject.bin") (h2 : item.name ≠ "xl/workbook.xml") :
    xlsxTransformEntry rm rhs item = some item := by
  unfold xlsxTransformEntry
  simp [h1, h2]

/-- With both options disabled every entry is written unchanged. -/
theorem xlsxTransformEntry_id (item : Entry) :
    xlsxTransformEntry false false item = some item := by
  unfold xlsxTransformEntry
  simp

/-- Entries other than content.xml take the generic copy path of
src/main.py lines 157-159 and are written unchanged. -/
theorem odsTransformEntry_copy (rhs : Bool) (item : Entry)
    (h : item.name ≠ "content.xml") :
    odsTransformEntry rhs item = item := by
  unfold odsTransformEntry
  simp [h]

/-- With `remove_hidden_sheets` disabled every entry is written
unchanged by the ODS loop. -/
theorem odsTransformEntry_id (item : Entry) :
    odsTransformEntry false item = item := by
  unfold odsTransformEntry
  simp

/-- A `filterMap` whose function fixes every element it keeps is
idempotent. -/
theorem filterMap_stable {α : Type} (f : α → Option α)
    (hf : ∀ a b, f a = some b → f b = some b) (l : List α) :
    (l.filterMap f).filterMap f = l.filterMap f := by
  induction l with
  | nil => rfl
  | cons a l ih =>
    cases hfa : f a with
    | none => simp [List.filterMap_cons, hfa, ih]
    | some b => simp [List.filterMap_cons, hfa, hf a b hfa, ih]

/-- Entries other than the descriptor are never transformed when
`remove_macros` is disabled. -/
theorem xlsxTransformEntry_copy_rmoff (rhs : Bool) (item : Entry)
    (h2 : item.name ≠ "xl/workbook.xml") :
    xlsxTransformEntry false rhs item = some item := by
  unfold xlsxTransformEntry
  simp [h2]

/-- The macro binary entry is dropped when `remove_macros` is set
(src/main.py lines 49-51). -/
theorem xlsxTransformEntry_macro_drop (rhs : Bool) (item : Entry)
    (h : item.name = "xl/vbaProject.bin") :
    xlsxTransformEntry true rhs item = none := by
  unfold xlsxTransformEntry
  simp [h]

/-- The entry transform preserves entry names. -/
theorem xlsxTransformEntry_name (rm rhs : Bool) (item e : Entry)
    (h : xlsxTransformEntry rm rhs item = some e) : e.name = item.name := by
  unfold xlsxTransformEntry at h
  by_cases h1 : (rm && (item.name == "xl/vbaProject.bin")) = true
  · rw [if_pos h1] at h; cases h
  · rw [if_neg h1] at h
    by_cases h2 : (rhs && (item.name == "xl/workbook.xml")) = true
    · rw [if_pos h2] at h
      cases hp : parseXml item.payload with
      | none => rw [hp] at h; cases h; rfl
      | some t =>
        rw [hp] at h
        simp only [] at h
        by_cases hq : pruneRaises t = true
        · rw [if_pos hq] at h; cases h; rfl
        · rw [if_neg hq] at h; cases h; rfl
    · rw [if_neg h2] at h; cases h; rfl

/-- With `remove_hidden_sheets` set, the descriptor entry is always
written under its bare name with fresh metadata, whatever path is
taken: parse failure (line 78), prune failure (line 78 via the
`AttributeError` handler), or re-serialization (line 81). -/
theorem xlsxTransformEntry_descriptor (rm : Bool) (item : Entry)
    (hw : item.name = "xl/workbook.xml") :
    ∃ p, xlsxTransformEntry rm true item = some ⟨item.name, p, freshMeta⟩ := by
  unfold xlsxTransformEntry
  rw [hw]
  cases hp : parseXml item.payload with
  | none => exact ⟨item.payload, by simp⟩
  | some t =>
    cases hany : pruneRaises t with
    | true => exact ⟨item.payload, by simp [hany]⟩
    | false => exact ⟨serializeXml t, by simp [hany]⟩

/-- With `remove_hidden_sheets` set, the content.xml entry is always
written under its bare name with fresh metadata, whatever path is
taken: parse failure (line 151), the `TypeError` raised by the
`namespaces` keyword (line 151 via the handler), or re-serialization
of a table-free document (line 154). -/
theorem odsTransformEntry_descriptor (item : Entry)
    (hc : item.name = "content.xml") :
    ∃ p, odsTransformEntry true item = ⟨item.name, p, freshMeta⟩ := by
  unfold odsTransformEntry
  rw [hc]
  cases hp : parseXml item.payload with
  | none => exact ⟨item.payload, by simp⟩
  | some t =>
    cases he : (findTables t).isEmpty with
    | true => exact ⟨serializeXml t, by simp [he]⟩
    | false => exact ⟨item.payload, by simp [he]⟩

/-- Applying the xlsx entry transform to one of its own outputs
leaves that output unchanged. -/
theorem xlsxTransformEntry_stable (rm : Bool) (item e : Entry)
    (h : xlsxTransformEntry rm true item = some e) :
    xlsxTransformEntry rm true e = some e := by
  have hwb : ("xl/workbook.xml" == "xl/vbaProject.bin") = false := by decide
  unfold xlsxTransformEntry at h
  by_cases h1 : (rm && (item.name == "xl/vbaProject.bin")) = true
  · rw [if_pos h1] at h; cases h
  · rw [if_neg h1] at h
    by_cases h2 : (true && (item.name == "xl/workbook.xml")) = true
    · have hw : item.name = "xl/workbook.xml" := by
        simpa using h2
      rw [if_pos h2] at h
      cases hp : parseXml item.payload with
      | none =>
        rw [hp] at h
        cases h
        unfold xlsxTransformEntry
        simp [hw, hwb, hp]
      | some t =>
        rw [hp] at h
        simp only [] at h
        by_cases hq : pruneRaises t = true
        · rw [if_pos hq] at h
          cases h
          unfold xlsxTransformEntry
          simp [hw, hwb, hp, hq]
        · rw [if_neg hq] at h
          cases h
          unfold xlsxTransformEntry
          have hps : parseXml (serializeXml t) = some t := rfl
          simp [hw, hwb, hps, hq]
    · rw [if_neg h2] at h
      cases h
      unfold xlsxTransformEntry
      rw [if_neg h1, if_neg h2]

/-- Applying the ODS entry transform to one of its own outputs leaves
that output unchanged. -/
theorem odsTransformEntry_stable (item : Entry) :
    odsTransformEntry true (odsTransformEntry true item) =
      odsTransformEntry true item := by
  by_cases hc : item.name = "content.xml"
  · unfold odsTransformEntry
    rw [hc]
    cases hp : parseXml item.payload with
    | none => simp [odsTransformEntry, hp]
    | some t =>
      cases he : (findTables t).isEmpty with
      | true =>
        have hps : parseXml (serializeXml t) = some t := rfl
        simp [odsTransformEntry, hp, he, hps]
      | false => simp [odsTransformEntry, hp, he]
  · rw [odsTransformEntry_copy true item hc, odsTransformEntry_copy true item hc]

/-- A map whose function is idempotent is stable under repetition. -/
theorem map_stable {α : Type} (f : α → α) (hf : ∀ a, f (f a) = f a)
    (l : List α) : (l.map f).map f = l.map f := by
  induction l with
  | nil => rfl
  | cons a l ih => simp only [List.map_cons, hf, ih]

/-- Splitting a list length by a predicate. -/
theorem length_filter_add_length_filter_not {α : Type} (p : α → Bool) (l : List α) :
    (l.filter p).length + (l.filter (fun a => !(p a))).length = l.length := by
  induction l with
  | nil => rfl
  | cons a l ih => cases hpa : p a <;> simp [List.filter_cons, hpa] <;> omega

/-! ### Claim theorems -/

/-- C1 (code-bug evidence): on a family-A container whose workbook
descriptor contains exactly one sheet element with `state="hidden"`,
running the sanitizer with `remove-hidden-sheets` set does NOT remove
that sheet element: the removal loop raises `AttributeError` at
`sheet.getparent()` (src/main.py line 74; ElementTree elements have no
such method), the handler of line 76 writes the descriptor bytes
verbatim, and the run still reports success.  The output descriptor
payload below is the unchanged input document, in which the hidden
sheet is still found. -/
theorem c1_hidden_sheet_survives :
    (sanitize_xlsx c1input false false true false).output =
      some [⟨"xl/workbook.xml", Payload.xml wbSrcBytes hiddenWorkbookDoc, freshMeta⟩,
            ⟨"xl/styles.xml", Payload.raw [9, 9], srcMeta⟩] ∧
    hiddenSheetsFound (Payload.xml wbSrcBytes hiddenWorkbookDoc) = 1 ∧
    (findSheets hiddenWorkbookDoc).length = 2 ∧
    (sanitize_xlsx c1input false false true false).ok = true :=
  ⟨rfl, rfl, rfl, rfl⟩

/-- C2: an entry whose name is not an active trigger name
(`xl/vbaProject.bin`, `xl/workbook.xml` for family A; `content.xml` for
family B) is written with exactly its input payload bytes (and
metadata), for every combination of sanitization options. -/
theorem c2_nontrigger_entries_preserved
    (a : Entry) (ha1 : a.name ≠ "xl/vbaProject.bin") (ha2 : a.name ≠ "xl/workbook.xml")
    (b : Entry) (hb : b.name ≠ "content.xml")
    (rm rhs rhs2 : Bool) (zin zods : Container) (hain : a ∈ zin) (hbin : b ∈ zods) :
    xlsxTransformEntry rm rhs a = some a ∧
    a ∈ sanitize_xlsx_entries rm rhs zin ∧
    odsTransformEntry rhs2 b = b ∧
    b ∈ sanitize_ods_entries rhs2 zods := by
  refine ⟨xlsxTransformEntry_copy rm rhs a ha1 ha2, ?_,
    odsTransformEntry_copy rhs2 b hb, ?_⟩
  · exact List.mem_filterMap.mpr ⟨a, hain, xlsxTransformEntry_copy rm rhs a ha1 ha2⟩
  · have h := List.mem_map_of_mem (odsTransformEntry rhs2) hbin
    rwa [odsTransformEntry_copy rhs2 b hb] at h

/-- C2 witness: a concrete untargeted entry of each family passes
through both pipelines byte-identically with all options enabled. -/
theorem c2_witness :
    xlsxTransformEntry true true sampleXlsxEntry = some sampleXlsxEntry ∧
    sampleXlsxEntry ∈ sanitize_xlsx_entries true true [sampleXlsxEntry] ∧
    odsTransformEntry true sampleOdsEntry = sampleOdsEntry ∧
    sampleOdsEntry ∈ sanitize_ods_entries true [sampleOdsEntry] :=
  c2_nontrigger_entries_preserved sampleXlsxEntry (by decide) (by decide)
    sampleOdsEntry (by decide) true true true [sampleXlsxEntry] [sampleOdsEntry]
    (List.mem_singleton_self sampleXlsxEntry) (List.mem_singleton_self sampleOdsEntry)

/-- C3: with `remove_macros` and `remove_hidden_sheets` both disabled,
transcoding reproduces the input container exactly: same entries, same
order, same payload bytes and metadata (both container families). -/
theorem c3_roundtrip_options_disabled (zin zods : Container) :
    sanitize_xlsx_entries false false zin = zin ∧
    sanitize_ods_entries false zods = zods := by
  constructor
  · induction zin with
    | nil => rfl
    | cons a l ih =>
      show (a :: l).filterMap (xlsxTransformEntry false false) = a :: l
      rw [List.filterMap_cons, xlsxTransformEntry_id]
      exact congrArg (a :: ·) ih
  · induction zods with
    | nil => rfl
    | cons a l ih =>
      show (a :: l).map (odsTransformEntry false) = a :: l
      rw [List.map_cons, odsTransformEntry_id]
      exact congrArg (a :: ·) ih

/-- C4: with `remove_macros` set, no entry named `xl/vbaProject.bin`
exists in the output container; the macro entry is dropped with no
placeholder (src/main.py lines 49-51). -/
theorem c4_macro_entry_absent (zin : Container) (rhs : Bool) :
    (∀ e ∈ sanitize_xlsx_entries true rhs zin, e.name ≠ "xl/vbaProject.bin") ∧
    (∀ item : Entry, item.name = "xl/vbaProject.bin" →
      xlsxTransformEntry true rhs item = none) := by
  constructor
  · intro e he contra
    obtain ⟨a, _, hfa⟩ := List.mem_filterMap.mp he
    have hname := xlsxTransformEntry_name true rhs a e hfa
    have hv : a.name = "xl/vbaProject.bin" := by rw [← hname, contra]
    rw [xlsxTransformEntry_macro_drop rhs a hv] at hfa
    cases hfa
  · exact fun item h => xlsxTransformEntry_macro_drop rhs item h

/-- C4 witness: in a concrete container holding the macro binary and an
untargeted entry, the surviving output entry is not the macro binary,
and the macro entry itself maps to `none` (dropped). -/
theorem c4_witness :
    sampleXlsxEntry.name ≠ "xl/vbaProject.bin" ∧
    xlsxTransformEntry true false sampleVbaEntry = none :=
  ⟨(c4_macro_entry_absent [sampleVbaEntry, sampleXlsxEntry] false).1 sampleXlsxEntry
      (List.mem_filterMap.mpr ⟨sampleXlsxEntry,
        List.mem_cons_of_mem sampleVbaEntry (List.mem_singleton_self sampleXlsxEntry),
        rfl⟩),
    (c4_macro_entry_absent [sampleVbaEntry, sampleXlsxEntry] false).2 sampleVbaEntry rfl⟩

/-- With `remove_hidden_sheets` set and an unparsable descriptor, the
handler of src/main.py lines 76-79 writes the original bytes under the
bare name. -/
theorem xlsxTransformEntry_parsefail (rm : Bool) (item : Entry)
    (hname : item.name = "xl/workbook.xml") (hp : parseXml item.payload = none) :
    xlsxTransformEntry rm true item = some ⟨item.name, item.payload, freshMeta⟩ := by
  unfold xlsxTransformEntry
  rw [hname]
  simp [hp]

/-- With `remove_hidden_sheets` set and an unparsable content.xml, the
handler of src/main.py lines 149-152 writes the original bytes under
the bare name. -/
theorem odsTransformEntry_parsefail (item : Entry)
    (hname : item.name = "content.xml") (hp : parseXml item.payload = none) :
    odsTransformEntry true item = ⟨item.name, item.payload, freshMeta⟩ := by
  unfold odsTransformEntry
  rw [hname]
  simp [hp]

/-- Every entry other than a dropped macro binary yields some output
entry of the same name. -/
theorem xlsxTransformEntry_processed (rm : Bool) (e : Entry)
    (h : ¬(rm = true ∧ e.name = "xl/vbaProject.bin")) :
    ∃ e2, xlsxTransformEntry rm true e = some e2 ∧ e2.name = e.name := by
  by_cases hw : e.name = "xl/workbook.xml"
  · obtain ⟨p, hp⟩ := xlsxTransformEntry_descriptor rm e hw
    exact ⟨⟨e.name, p, freshMeta⟩, hp, rfl⟩
  · cases rm with
    | false => exact ⟨e, xlsxTransformEntry_copy_rmoff true e hw, rfl⟩
    | true =>
      have hv : e.name ≠ "xl/vbaProject.bin" := fun hh => h ⟨rfl, hh⟩
      exact ⟨e, xlsxTransformEntry_copy true true e hv hw, rfl⟩

/-- C5: when the targeted descriptor entry fails to parse as XML under
`remove_hidden_sheets`, its original bytes are written to the output
verbatim, every other (non-dropped) entry is still processed, and the
run reports success with exit signal 0 — for both families. -/
theorem c5_parse_failure_fail_open
    (zin : Container) (item : Entry)
    (hname : item.name = "xl/workbook.xml") (hp : parseXml item.payload = none)
    (hin : item ∈ zin) (rm ow : Bool)
    (zods : Container) (citem : Entry)
    (hcname : citem.name = "content.xml") (hcp : parseXml citem.payload = none)
    (hcin : citem ∈ zods) :
    xlsxTransformEntry rm true item = some ⟨item.name, item.payload, freshMeta⟩ ∧
    (⟨item.name, item.payload, freshMeta⟩ : Entry) ∈ sanitize_xlsx_entries rm true zin ∧
    (sanitize_xlsx zin false rm true ow).ok = true ∧
    exitSignal (sanitize_xlsx zin false rm true ow).ok = 0 ∧
    (∀ e ∈ zin, ¬(rm = true ∧ e.name = "xl/vbaProject.bin") →
      ∃ e2 ∈ sanitize_xlsx_entries rm true zin, e2.name = e.name) ∧
    odsTransformEntry true citem = ⟨citem.name, citem.payload, freshMeta⟩ ∧
    (⟨citem.name, citem.payload, freshMeta⟩ : Entry) ∈ sanitize_ods_entries true zods ∧
    (sanitize_ods zods false rm true ow).ok = true ∧
    exitSignal (sanitize_ods zods false rm true ow).ok = 0 := by
  refine ⟨xlsxTransformEntry_parsefail rm item hname hp, ?_, rfl, rfl, ?_,
    odsTransformEntry_parsefail citem hcname hcp, ?_, rfl, rfl⟩
  · exact List.mem_filterMap.mpr ⟨item, hin, xlsxTransformEntry_parsefail rm item hname hp⟩
  · intro e he hne
    obtain ⟨e2, hsome, hn⟩ := xlsxTransformEntry_processed rm e hne
    exact ⟨e2, List.mem_filterMap.mpr ⟨e, he, hsome⟩, hn⟩
  · have h := List.mem_map_of_mem (odsTransformEntry true) hcin
    rwa [odsTransformEntry_parsefail citem hcname hcp] at h

/-- C5 witness: concrete unparsable descriptor entries in singleton
containers of each family are copied verbatim and the runs succeed. -/
theorem c5_witness :
    xlsxTransformEntry false true rawWorkbookEntry =
      some ⟨rawWorkbookEntry.name, rawWorkbookEntry.payload, freshMeta⟩ ∧
    (⟨rawWorkbookEntry.name, rawWorkbookEntry.payload, freshMeta⟩ : Entry) ∈
      sanitize_xlsx_entries false true [rawWorkbookEntry] ∧
    (sanitize_xlsx [rawWorkbookEntry] false false true false).ok = true ∧
    exitSignal (sanitize_xlsx [rawWorkbookEntry] false false true false).ok = 0 ∧
    odsTransformEntry true rawContentEntry =
      ⟨rawContentEntry.name, rawContentEntry.payload, freshMeta⟩ ∧
    (⟨rawContentEntry.name, rawContentEntry.payload, freshMeta⟩ : Entry) ∈
      sanitize_ods_entries true [rawContentEntry] ∧
    (sanitize_ods [rawContentEntry] false false true false).ok = true ∧
    exitSignal (sanitize_ods [rawContentEntry] false false true false).ok = 0 := by
  have h := c5_parse_failure_fail_open [rawWorkbookEntry] rawWorkbookEntry rfl rfl
    (List.mem_singleton_self rawWorkbookEntry) false false
    [rawContentEntry] rawContentEntry rfl rfl
    (List.mem_singleton_self rawContentEntry)
  exact ⟨h.1, h.2.1, h.2.2.1, h.2.2.2.1, h.2.2.2.2.2.1, h.2.2.2.2.2.2.1,
    h.2.2.2.2.2.2.2.1, h.2.2.2.2.2.2.2.2⟩

/-- C6 (code-bug evidence): on a family-B content.xml containing a
table element with `table:display="false"`, running with
`remove_hidden_sheets` set does NOT remove the table: line 139 calls
`Element.get` with a `namespaces` keyword argument that
`xml.etree.ElementTree` does not accept, the first loop iteration
raises `TypeError`, the handler of lines 149-152 copies the entry
verbatim, and the run still succeeds.  The output payload below is the
unchanged input document, in which the display="false" table is still
found. -/
theorem c6_hidden_table_survives :
    odsTransformEntry true c6entry =
      ⟨"content.xml", Payload.xml contentSrcBytes odsContentDoc, freshMeta⟩ ∧
    (sanitize_ods [c6entry] false false true false).output =
      some [⟨"content.xml", Payload.xml contentSrcBytes odsContentDoc, freshMeta⟩] ∧
    ((findTables odsContentDoc).filter
      (fun t => t.attrGet displayAttr == some "false")).length = 1 ∧
    (findTables odsContentDoc).length = 2 ∧
    (sanitize_ods [c6entry] false false true false).ok = true :=
  ⟨rfl, rfl, rfl, rfl, rfl⟩

/-- C7: with the output path already existing and `overwrite` unset,
every pipeline fails before opening the destination (src/main.py lines
39-41, 115-117, 187-189): no output container is produced and the exit
signal is 1. -/
theorem c7_existing_output_unwritten (zin zods : Container) (c : Csv)
    (rm rhs rm2 rhs2 : Bool) :
    sanitize_xlsx zin true rm rhs false = ⟨none, false⟩ ∧
    sanitize_ods zods true rm2 rhs2 false = ⟨none, false⟩ ∧
    sanitize_csv c true false = ⟨none, false⟩ ∧
    exitSignal (sanitize_xlsx zin true rm rhs false).ok = 1 ∧
    exitSignal (sanitize_ods zods true rm2 rhs2 false).ok = 1 ∧
    exitSignal (sanitize_csv c true false).ok = 1 :=
  ⟨rfl, rfl, rfl, rfl, rfl, rfl⟩

/-- The hidden-sheet count of the payload an entry transform writes
equals that of the payload it read: the transform never removes hidden
sheets, whichever path it takes. -/
theorem xlsxTransformEntry_hidden_count (rm : Bool) (item e : Entry)
    (h : xlsxTransformEntry rm true item = some e) :
    hiddenSheetsFound e.payload = hiddenSheetsFound item.payload := by
  unfold xlsxTransformEntry at h
  by_cases h1 : (rm && (item.name == "xl/vbaProject.bin")) = true
  · rw [if_pos h1] at h; cases h
  · rw [if_neg h1] at h
    by_cases h2 : (true && (item.name == "xl/workbook.xml")) = true
    · rw [if_pos h2] at h
      cases hp : parseXml item.payload with
      | none => rw [hp] at h; cases h; rfl
      | some t =>
        rw [hp] at h
        simp only [] at h
        by_cases hq : pruneRaises t = true
        · rw [if_pos hq] at h; cases h; rfl
        · rw [if_neg hq] at h
          cases h
          show hiddenSheetsFound (serializeXml t) = hiddenSheetsFound item.payload
          unfold hiddenSheetsFound
          rw [hp]
          rfl
    · rw [if_neg h2] at h; cases h; rfl

/-- C8 counterexample: on a container whose descriptor holds one hidden
sheet, the first run with `remove_hidden_sheets` set copies the
descriptor verbatim (prune failure), so the descriptor handed to the
second run still contains one matching hidden node — not zero, and not
"already pruned" — refuting the stated reason of the claim even though
the two outputs coincide. -/
theorem c8_counterexample :
    sanitize_xlsx_entries false true c1input =
      [⟨"xl/workbook.xml", Payload.xml wbSrcBytes hiddenWorkbookDoc, freshMeta⟩,
       ⟨"xl/styles.xml", Payload.raw [9, 9], srcMeta⟩] ∧
    sanitize_xlsx_entries false true (sanitize_xlsx_entries false true c1input) =
      sanitize_xlsx_entries false true c1input ∧
    hiddenSheetsFound (Payload.xml wbSrcBytes hiddenWorkbookDoc) = 1 ∧
    hiddenSheetsFound (Payload.xml wbSrcBytes hiddenWorkbookDoc) ≠ 0 :=
  ⟨rfl, rfl, rfl, by decide⟩

/-- C8 (amended): hidden-node removal is idempotent — re-running either
pipeline with `remove_hidden_sheets` set on its own output reproduces
that output exactly — but not because the second run finds zero hidden
nodes: the transform preserves the hidden-sheet count of the descriptor
payload, so the second run finds exactly as many hidden nodes as the
first and takes the same path. -/
theorem c8_hidden_removal_idempotent (zin zods : Container) (rm : Bool) :
    sanitize_xlsx_entries rm true (sanitize_xlsx_entries rm true zin) =
      sanitize_xlsx_entries rm true zin ∧
    sanitize_ods_entries true (sanitize_ods_entries true zods) =
      sanitize_ods_entries true zods ∧
    (∀ item e, xlsxTransformEntry rm true item = some e →
      hiddenSheetsFound e.payload = hiddenSheetsFound item.payload) :=
  ⟨filterMap_stable _ (xlsxTransformEntry_stable rm) zin,
   map_stable _ odsTransformEntry_stable zods,
   xlsxTransformEntry_hidden_count rm⟩

/-- C8 witness: both pipelines are idempotent on concrete containers
with hidden content, and the count-preservation part holds at the
concrete unparsable descriptor. -/
theorem c8_witness :
    sanitize_xlsx_entries false true (sanitize_xlsx_entries false true c1input) =
      sanitize_xlsx_entries false true c1input ∧
    sanitize_ods_entries true (sanitize_ods_entries true [c6entry]) =
      sanitize_ods_entries true [c6entry] ∧
    hiddenSheetsFound
        (⟨rawWorkbookEntry.name, rawWorkbookEntry.payload, freshMeta⟩ : Entry).payload =
      hiddenSheetsFound rawWorkbookEntry.payload := by
  have h := c8_hidden_removal_idempotent c1input [c6entry] false
  exact ⟨h.1, h.2.1, h.2.2 rawWorkbookEntry
    ⟨rawWorkbookEntry.name, rawWorkbookEntry.payload, freshMeta⟩ rfl⟩

/-- C9: on a tabular input with a header and 5 data rows of which
exactly one has a missing field, the output keeps the header, keeps
exactly the 4 complete rows, and preserves both row order (the output
rows form a sublist of the input rows) and field order (rows pass
through unchanged). -/
theorem c9_incomplete_rows_dropped (c : Csv)
    (h5 : c.rows.length = 5)
    (h1 : (c.rows.filter (fun r => !(rowComplete r))).length = 1) :
    (sanitize_csv_frame c).header = c.header ∧
    (sanitize_csv_frame c).rows = c.rows.filter rowComplete ∧
    (sanitize_csv_frame c).rows.length = 4 ∧
    List.Sublist (sanitize_csv_frame c).rows c.rows ∧
    (∀ r ∈ (sanitize_csv_frame c).rows, rowComplete r = true) := by
  have hlen := length_filter_add_length_filter_not rowComplete c.rows
  refine ⟨rfl, rfl, ?_, ?_, ?_⟩
  · show (c.rows.filter rowComplete).length = 4
    omega
  · exact List.filter_sublist c.rows
  · intro r hr
    exact (List.mem_filter.mp hr).2

/-- C9 witness: the concrete five-row sample with one incomplete row
keeps its header and exactly its four complete rows, in order. -/
theorem c9_witness :
    (sanitize_csv_frame c9input).header = c9input.header ∧
    (sanitize_csv_frame c9input).rows = c9input.rows.filter rowComplete ∧
    (sanitize_csv_frame c9input).rows.length = 4 ∧
    List.Sublist (sanitize_csv_frame c9input).rows c9input.rows ∧
    (sanitize_csv_frame c9input).rows =
      [[some "1", some "2"], [some "4", some "5"],
       [some "6", some "7"], [some "8", some "9"]] := by
  have h := c9_incomplete_rows_dropped c9input (by decide) (by decide)
  exact ⟨h.1, h.2.1, h.2.2.1, h.2.2.2.1, rfl⟩

/-- C10 counterexample: `remove_hidden_sheets` set and a descriptor
entry that parses do NOT imply that a replacement entry is written:
when the parsed workbook contains a hidden sheet, the prune loop raises
at `sheet.getparent()` and the handler writes the ORIGINAL bytes (still
under the bare name), whose bytes differ from the re-serialization.
The descriptor here is also a verbatim-copied entry in the sense of the
fail-open path, yet its source `ZipInfo` metadata is not kept. -/
theorem c10_counterexample :
    xlsxTransformEntry false true
        ⟨"xl/workbook.xml", Payload.xml wbSrcBytes hiddenWorkbookDoc, srcMeta⟩ =
      some ⟨"xl/workbook.xml", Payload.xml wbSrcBytes hiddenWorkbookDoc, freshMeta⟩ ∧
    parseXml (Payload.xml wbSrcBytes hiddenWorkbookDoc) = some hiddenWorkbookDoc ∧
    payloadBytes (Payload.xml wbSrcBytes hiddenWorkbookDoc) ≠
      payloadBytes (serializeXml hiddenWorkbookDoc) ∧
    srcMeta ≠ freshMeta :=
  ⟨rfl, rfl, by decide, by decide⟩

/-- C10 (amended): with `remove_hidden_sheets` set, EVERY write of the
descriptor entry — replacement, parse-failure copy, or prune-failure
copy — goes through `writestr(filename, ...)` and carries fresh default
ZIP metadata (fresh timestamp, default attributes, the archive deflate
compression) instead of the source `ZipInfo` metadata; the replacement
content is written exactly when the entry parses and no hidden sheet is
matched; entries on the generic copy path keep their source `ZipInfo`
metadata unchanged.  Both families behave alike. -/
theorem c10_descriptor_fresh_metadata
    (rm rhs rhs2 : Bool) (item : Entry) (hw : item.name = "xl/workbook.xml")
    (t : Xml) (b : List Nat)
    (a : Entry) (ha1 : a.name ≠ "xl/vbaProject.bin") (ha2 : a.name ≠ "xl/workbook.xml")
    (citem : Entry) (hcname : citem.name = "content.xml")
    (cother : Entry) (hcother : cother.name ≠ "content.xml") :
    (∃ p, xlsxTransformEntry rm true item = some ⟨item.name, p, freshMeta⟩) ∧
    (item.payload = Payload.xml b t →
      (findSheets t).filter isHiddenSheet = [] →
      xlsxTransformEntry rm true item = some ⟨item.name, serializeXml t, freshMeta⟩) ∧
    xlsxTransformEntry rm rhs a = some a ∧
    (∃ p, odsTransformEntry true citem = ⟨citem.name, p, freshMeta⟩) ∧
    odsTransformEntry rhs2 cother = cother ∧
    freshMeta.compressType = ZIP_DEFLATED := by
  refine ⟨xlsxTransformEntry_descriptor rm item hw, ?_,
    xlsxTransformEntry_copy rm rhs a ha1 ha2,
    odsTransformEntry_descriptor citem hcname,
    odsTransformEntry_copy rhs2 cother hcother, rfl⟩
  intro hpl hnone
  have hpr : pruneRaises t = false := by
    unfold pruneRaises
    rw [hnone]
    simp
  have hp : parseXml item.payload = some t := by rw [hpl]; rfl
  unfold xlsxTransformEntry
  rw [hw]
  simp [hp, hpr]

/-- C10 witness: a concrete descriptor with no hidden sheet is replaced
by its re-serialization under fresh metadata, while concrete untargeted
entries keep their metadata. -/
theorem c10_witness :
    xlsxTransformEntry false true visibleWbEntry =
      some ⟨visibleWbEntry.name, serializeXml visibleWorkbookDoc, freshMeta⟩ ∧
    xlsxTransformEntry false true sampleXlsxEntry = some sampleXlsxEntry ∧
    odsTransformEntry false sampleOdsEntry = sampleOdsEntry ∧
    freshMeta.compressType = ZIP_DEFLATED := by
  have h := c10_descriptor_fresh_metadata false true false visibleWbEntry rfl
    visibleWorkbookDoc wbSrcBytes sampleXlsxEntry (by decide) (by decide)
    rawContentEntry rfl sampleOdsEntry (by decide)
  exact ⟨h.2.1 rfl rfl, h.2.2.1, h.2.2.2.2.1, h.2.2.2.2.2⟩
